import Mathlib

/-!
Verification of the client-side image ingestion workflow of the
karang-taruna admin interface.

Embedded source files:
* src/components/ImageUpload.tsx  (resizeImage, deleteOldImage, uploadImage,
  handleFileSelect, removeImage)
* src/pages/Gallery.tsx  (resizeImage, handleFileSelect, handleConfirmUpload,
  handleDeleteImage)
* src/pages/Activities.tsx  (deleteImageFromStorage)

Remote calls (object store, database, toasts, the onChange callback and the
console log) are recorded as an explicit event trace; the fallibility of the
remote platform is an environment of boolean failure flags.  JavaScript string
primitives (split, includes, startsWith, endsWith) are modelled on the
character-list level so that every definition evaluates.
-/

/-! ## JavaScript string primitives, on character lists -/

/-- JavaScript s.split(sep) for a single-character separator: splits the list
at every occurrence of sep, keeping empty segments (so the result is never
empty and a trailing separator yields a trailing empty segment). -/
def jsSplit (sep : Char) : List Char → List (List Char)
  | [] => [[]]
  | c :: cs =>
    if c = sep then
      [] :: jsSplit sep cs
    else
      match jsSplit sep cs with
      | [] => [[c]]
      | r :: rs => (c :: r) :: rs

/-- JavaScript s.includes(pat): substring containment test. -/
def jsIncludes (pat : List Char) : List Char → Bool
  | [] => pat.isEmpty
  | c :: cs => List.isPrefixOf pat (c :: cs) || jsIncludes pat cs

/-- JavaScript s.startsWith(pre). -/
def jsStartsWith (pre s : String) : Bool :=
  List.isPrefixOf pre.data s.data

/-- Specification-side reading of "the trailing segment after the last
separator": if the separator still occurs in the tail, recurse into the tail;
otherwise drop a leading separator, or keep the whole list when the separator
does not occur at all. -/
def afterLastSep (sep : Char) : List Char → List Char
  | [] => []
  | c :: cs =>
    if sep ∈ cs then afterLastSep sep cs
    else if c = sep then cs else c :: cs

theorem jsSplit_ne_nil (sep : Char) (l : List Char) : jsSplit sep l ≠ [] := by
  cases l with
  | nil => simp [jsSplit]
  | cons c cs =>
    simp only [jsSplit]
    split
    · simp
    · split <;> simp

theorem jsSplit_of_not_mem (sep : Char) (l : List Char) (h : sep ∉ l) :
    jsSplit sep l = [l] := by
  induction l with
  | nil => rfl
  | cons c cs ih =>
    have hc : ¬ c = sep := fun hc => h (hc ▸ List.mem_cons_self c cs)
    have hcs : sep ∉ cs := fun hm => h (List.mem_cons_of_mem c hm)
    simp only [jsSplit, if_neg hc, ih hcs]

theorem two_le_length_jsSplit (sep : Char) (l : List Char) (h : sep ∈ l) :
    2 ≤ (jsSplit sep l).length := by
  induction l with
  | nil => cases h
  | cons c cs ih =>
    by_cases hc : c = sep
    · have h1 : 1 ≤ (jsSplit sep cs).length := by
        cases hq : jsSplit sep cs with
        | nil => exact absurd hq (jsSplit_ne_nil sep cs)
        | cons r rs => simp
      simp only [jsSplit, if_pos hc, List.length_cons]
      omega
    · have hcs : sep ∈ cs := by
        cases List.mem_cons.1 h with
        | inl he => exact absurd he.symm hc
        | inr hm => exact hm
      have h2 := ih hcs
      simp only [jsSplit, if_neg hc]
      cases hq : jsSplit sep cs with
      | nil => exact absurd hq (jsSplit_ne_nil sep cs)
      | cons r rs =>
        rw [hq] at h2
        simpa using h2

/-- The last segment produced by jsSplit is exactly the suffix after the last
occurrence of the separator (the whole list when the separator is absent). -/
theorem getLastD_jsSplit (sep : Char) (l : List Char) :
    (jsSplit sep l).getLastD [] = afterLastSep sep l := by
  induction l with
  | nil => rfl
  | cons c cs ih =>
    by_cases hmem : sep ∈ cs
    · have hlen := two_le_length_jsSplit sep cs hmem
      cases hq : jsSplit sep cs with
      | nil => exact absurd hq (jsSplit_ne_nil sep cs)
      | cons r rs =>
        cases rs with
        | nil => rw [hq] at hlen; simp at hlen
        | cons r2 rs2 =>
          rw [hq] at ih
          by_cases hc : c = sep
          · simp only [jsSplit, if_pos hc, hq, afterLastSep, if_pos hmem]
            rw [← ih]
            simp [List.getLastD_cons]
          · simp only [jsSplit, if_neg hc, hq, afterLastSep, if_pos hmem]
            rw [← ih]
            simp [List.getLastD_cons]
    · have hq := jsSplit_of_not_mem sep cs hmem
      by_cases hc : c = sep
      · simp only [jsSplit, if_pos hc, hq, afterLastSep, if_neg hmem, if_pos hc]
        simp [List.getLastD_cons]
      · simp only [jsSplit, if_neg hc, hq, afterLastSep, if_neg hmem, if_neg hc]
        simp [List.getLastD_cons]

/-! ## Data model -/

/-- A user-selected file: its name, declared media type (JS file.type) and
byte size (JS file.size).  The raw pixel payload is irrelevant to the claims
and is not modelled. -/
structure SelectedFile where
  name : String
  mediaType : String
  size : Nat
deriving DecidableEq

/-- Observable effects of a workflow run: remote object-store calls, remote
database calls, the onChange link callback, user-visible toasts and the
console error log. -/
inductive StoreEvent where
  | storeDelete (bucket : String) (key : String)
  | storeUpload (bucket : String) (key : String)
      (contentType : Option String) (upsert : Option Bool)
  | dbInsert (table : String) (imageUrl : String)
  | dbDelete (table : String) (id : Nat)
  | onChange (url : String)
  | toastError (msg : String)
  | toastSuccess (msg : String)
  | logError
deriving DecidableEq

/-- Failure behaviour of the remote platform during one run: whether the
store delete throws, whether the store upload returns an error, and whether
the database call returns an error. -/
structure StoreEnv where
  deleteFails : Bool
  uploadFails : Bool
  dbFails : Bool
deriving DecidableEq

/-- The trace of one run together with whether it reached its success path
(success toast / link committed). -/
structure RunResult where
  events : List StoreEvent
  success : Bool
deriving DecidableEq

/-- The fixed storage path marker of ImageUpload.tsx line 65,
Gallery.tsx line 163 and Activities.tsx line 153. -/
def storageMarker : String := "/storage/v1/object/public/uploads/"

/-- imageUrl.includes('/storage/v1/object/public/uploads/'). -/
def containsStorageMarker (url : String) : Bool :=
  jsIncludes storageMarker.data url.data

/-- urlParts = imageUrl.split('/'); fileName = urlParts[urlParts.length - 1]
(ImageUpload.tsx lines 61-62, Gallery.tsx lines 164-165,
Activities.tsx lines 150-151). -/
def fileNameFromUrl (url : String) : String :=
  String.mk ((jsSplit (Char.ofNat 47) url.data).getLastD [])

/-- The public URL the store resolves for an uploaded key
(base is the opaque project URL of the remote platform). -/
def publicUrlFor (base key : String) : String :=
  base ++ storageMarker ++ key

/-! ## ImageUpload.tsx -/

/-- resizeImage (ImageUpload.tsx lines 20-54), dimension computation only:
the branch on width > height, the proportional shrink of the longer edge to
maxSize, and the truncation to integers performed by the canvas
width/height assignment (Nat division is exactly this floor). -/
def resizeImageDims (width height maxSize : Nat) : Nat × Nat :=
  if width > height then
    if width > maxSize then (maxSize, height * maxSize / width)
    else (width, height)
  else
    if height > maxSize then (width * maxSize / height, maxSize)
    else (width, height)

/-- deleteOldImage (ImageUpload.tsx lines 56-74): no-op on an empty URL,
store remove of the trailing path segment only when the URL contains the
storage marker; a thrown failure is caught and logged, never rethrown. -/
def deleteOldImage (deleteFails : Bool) (imageUrl : String) : List StoreEvent :=
  if imageUrl = "" then []
  else if containsStorageMarker imageUrl then
    StoreEvent.storeDelete "uploads" (fileNameFromUrl imageUrl) ::
      (if deleteFails then [StoreEvent.logError] else [])
  else []

/-- The unique file name of ImageUpload.tsx lines 89-90: random token,
dash, timestamp, dot, and the original file extension
(file.name.split('.').pop()). -/
def uploadFileName (tok : String) (ts : Nat) (origName : String) : String :=
  tok ++ "-" ++ toString ts ++ "." ++
    String.mk ((jsSplit (Char.ofNat 46) origName.data).getLastD [])

/-- uploadImage (ImageUpload.tsx lines 76-118): delete the prior reference
(when the value prop is non-empty), resize, upload under the generated key
with contentType image/jpeg and upsert false; an upload error is thrown to
the catch which toasts it (the toast text stands in for error.message), a
successful upload resolves the public URL, commits it through onChange and
toasts success.  tok and ts stand for the random token and Date.now(). -/
def uploadImage (env : StoreEnv) (value : String) (file : SelectedFile)
    (tok : String) (ts : Nat) (base : String) : RunResult :=
  let cleanup := if value = "" then [] else deleteOldImage env.deleteFails value
  let key := uploadFileName tok ts file.name
  let uploadCall := StoreEvent.storeUpload "uploads" key (some "image/jpeg") (some false)
  if env.uploadFails then
    ⟨cleanup ++ [uploadCall, StoreEvent.toastError "Failed to upload image"], false⟩
  else
    ⟨cleanup ++ [uploadCall, StoreEvent.onChange (publicUrlFor base key),
      StoreEvent.toastSuccess "Image uploaded successfully"], true⟩

/-- handleFileSelect (ImageUpload.tsx lines 120-137): reject a non-image
media type, then a byte size above 10 * 1024 * 1024, with a toast and an
early return; otherwise run uploadImage. -/
def handleFileSelect (env : StoreEnv) (value : String) (file : SelectedFile)
    (tok : String) (ts : Nat) (base : String) : RunResult :=
  if jsStartsWith "image/" file.mediaType = false then
    ⟨[StoreEvent.toastError "Please select an image file"], false⟩
  else if file.size > 10 * 1024 * 1024 then
    ⟨[StoreEvent.toastError "File size must be less than 10MB"], false⟩
  else
    uploadImage env value file tok ts base

/-- removeImage (ImageUpload.tsx lines 139-150): delete the previewed
reference (when non-empty), then clear the link with onChange(""). -/
def removeImage (env : StoreEnv) (preview : String) : List StoreEvent :=
  (if preview = "" then [] else deleteOldImage env.deleteFails preview) ++
    [StoreEvent.onChange ""]

/-! ## Gallery.tsx -/

/-- resizeImage (Gallery.tsx lines 76-109), dimension computation only.
It assigns newWidth/newHeight instead of mutating width/height but computes
the same branches and quotients as ImageUpload.tsx. -/
def galleryResizeImageDims (width height maxSize : Nat) : Nat × Nat :=
  if width > height then
    if width > maxSize then (maxSize, height * maxSize / width)
    else (width, height)
  else
    if height > maxSize then (width * maxSize / height, maxSize)
    else (width, height)

/-- handleFileSelect (Gallery.tsx lines 46-64): same two validations, and on
acceptance only records the selection (upload happens later on confirm).
Returns the emitted events and the resulting selectedFile state. -/
def galleryHandleFileSelect (file : SelectedFile) :
    List StoreEvent × Option SelectedFile :=
  if jsStartsWith "image/" file.mediaType = false then
    ([StoreEvent.toastError "Please select an image file"], none)
  else if file.size > 10 * 1024 * 1024 then
    ([StoreEvent.toastError "File size must be less than 10MB"], none)
  else
    ([], some file)

/-- The gallery key of Gallery.tsx line 119: timestamp, dash, original
file name. -/
def galleryFileName (ts : Nat) (origName : String) : String :=
  toString ts ++ "-" ++ origName

/-- handleConfirmUpload (Gallery.tsx lines 112-150): early return when no
file is selected; otherwise resize, upload under the timestamped key with no
file options, insert the resolved public URL into the gallery table, and
toast; any thrown error lands in the catch which toasts a failure. -/
def handleConfirmUpload (env : StoreEnv) (selectedFile : Option SelectedFile)
    (ts : Nat) (base : String) : RunResult :=
  match selectedFile with
  | none => ⟨[], false⟩
  | some file =>
    let key := galleryFileName ts file.name
    let uploadCall := StoreEvent.storeUpload "uploads" key none none
    if env.uploadFails then
      ⟨[uploadCall, StoreEvent.toastError "Failed to upload image"], false⟩
    else if env.dbFails then
      ⟨[uploadCall, StoreEvent.dbInsert "gallery" (publicUrlFor base key),
        StoreEvent.toastError "Failed to upload image"], false⟩
    else
      ⟨[uploadCall, StoreEvent.dbInsert "gallery" (publicUrlFor base key),
        StoreEvent.toastSuccess "Image uploaded successfully"], true⟩

/-- handleDeleteImage (Gallery.tsx lines 152-178): delete the database row
first; a database error is thrown to the catch (failure toast, nothing
else).  Only then, and only when the URL contains the storage marker, remove
the trailing path segment from the store (the remove result is discarded by
the source), and toast success. -/
def handleDeleteImage (env : StoreEnv) (id : Nat) (imageUrl : String) : RunResult :=
  if env.dbFails then
    ⟨[StoreEvent.dbDelete "gallery" id,
      StoreEvent.toastError "Failed to delete image"], false⟩
  else
    ⟨StoreEvent.dbDelete "gallery" id ::
      (if containsStorageMarker imageUrl then
        [StoreEvent.storeDelete "uploads" (fileNameFromUrl imageUrl)]
      else []) ++
      [StoreEvent.toastSuccess "Image deleted successfully"], true⟩

/-! ## Activities.tsx -/

/-- deleteImageFromStorage (Activities.tsx lines 146-161): same body as
deleteOldImage of ImageUpload.tsx. -/
def deleteImageFromStorage (deleteFails : Bool) (imageUrl : String) :
    List StoreEvent :=
  if imageUrl = "" then []
  else if containsStorageMarker imageUrl then
    StoreEvent.storeDelete "uploads" (fileNameFromUrl imageUrl) ::
      (if deleteFails then [StoreEvent.logError] else [])
  else []

/-! ## Event classifiers -/

def isStoreDelete : StoreEvent → Bool
  | StoreEvent.storeDelete _ _ => true
  | _ => false

def isStoreUpload : StoreEvent → Bool
  | StoreEvent.storeUpload _ _ _ _ => true
  | _ => false

def isDbInsert : StoreEvent → Bool
  | StoreEvent.dbInsert _ _ => true
  | _ => false

def isOnChange : StoreEvent → Bool
  | StoreEvent.onChange _ => true
  | _ => false

def isToastError : StoreEvent → Bool
  | StoreEvent.toastError _ => true
  | _ => false

/-- Any remote call: an object-store or database operation. -/
def isRemoteCall : StoreEvent → Bool
  | StoreEvent.storeDelete _ _ => true
  | StoreEvent.storeUpload _ _ _ _ => true
  | StoreEvent.dbInsert _ _ => true
  | StoreEvent.dbDelete _ _ => true
  | _ => false

/-- The upload-call discipline the specification claims: every store upload
declares contentType image/jpeg and upsert false. -/
def uploadDeclaresJpegNoOverwrite : StoreEvent → Bool
  | StoreEvent.storeUpload _ _ (some ct) (some up) =>
      decide (ct = "image/jpeg") && decide (up = false)
  | StoreEvent.storeUpload _ _ _ _ => false
  | _ => true

/-- A store upload that passes no file options at all. -/
def uploadHasNoOptions : StoreEvent → Bool
  | StoreEvent.storeUpload _ _ none none => true
  | StoreEvent.storeUpload _ _ _ _ => false
  | _ => true

/-- JavaScript endsWith, used to state what a JPEG-appropriate suffix is. -/
def hasJpegSuffix (s : String) : Bool :=
  List.isSuffixOf ".jpg".data s.data || List.isSuffixOf ".jpeg".data s.data

/-! ## Helper lemmas about the cleanup trace -/

theorem countP_storeDelete_deleteOldImage (df : Bool) (url : String) :
    (deleteOldImage df url).countP isStoreDelete =
      if url = "" then 0 else if containsStorageMarker url then 1 else 0 := by
  cases df <;> unfold deleteOldImage <;>
    split_ifs <;> simp [isStoreDelete, List.countP_cons]

theorem countP_storeUpload_deleteOldImage (df : Bool) (url : String) :
    (deleteOldImage df url).countP isStoreUpload = 0 := by
  cases df <;> unfold deleteOldImage <;>
    split_ifs <;> simp [isStoreUpload, List.countP_cons]

theorem countP_toastError_deleteOldImage (df : Bool) (url : String) :
    (deleteOldImage df url).countP isToastError = 0 := by
  cases df <;> unfold deleteOldImage <;>
    split_ifs <;> simp [isToastError, List.countP_cons]

theorem countP_onChange_deleteOldImage (df : Bool) (url : String) :
    (deleteOldImage df url).countP isOnChange = 0 := by
  cases df <;> unfold deleteOldImage <;>
    split_ifs <;> simp [isOnChange, List.countP_cons]

theorem all_uploadOptions_deleteOldImage (df : Bool) (url : String) :
    (deleteOldImage df url).all uploadDeclaresJpegNoOverwrite = true := by
  cases df <;> unfold deleteOldImage <;>
    split_ifs <;> simp [uploadDeclaresJpegNoOverwrite]

/-! ## Claims -/

/-- C1: for every decoded input image and maxSize parameter, the resize step
is a no-op when both dimensions are at most maxSize; when the longer edge
exceeds maxSize the output longer edge equals maxSize exactly and the output
shorter edge is the floor of the aspect-ratio-exact value (so the ratio is
preserved within one pixel); 2000 by 1000 at maxSize 1080 yields 1080 by 540;
the Gallery.tsx variant computes the same dimensions. -/
theorem c1_resize_dimensions (w h m : Nat) :
    (max w h ≤ m → resizeImageDims w h m = (w, h)) ∧
    (m < max w h →
      max (resizeImageDims w h m).1 (resizeImageDims w h m).2 = m ∧
      (min (resizeImageDims w h m).1 (resizeImageDims w h m).2) * max w h
        ≤ min w h * m ∧
      min w h * m
        < ((min (resizeImageDims w h m).1 (resizeImageDims w h m).2) + 1) * max w h) ∧
    resizeImageDims 2000 1000 1080 = (1080, 540) ∧
    galleryResizeImageDims w h m = resizeImageDims w h m := by
  refine ⟨?_, ?_, by decide, rfl⟩
  · intro hle
    rw [max_le_iff] at hle
    unfold resizeImageDims
    split_ifs <;> first | rfl | (exfalso; omega)
  · intro hlt
    rw [lt_max_iff] at hlt
    unfold resizeImageDims
    split_ifs with h1 h2
    · have w0 : 0 < w := by omega
      have hs : h * m / w ≤ m := by
        calc h * m / w ≤ w * m / w :=
              Nat.div_le_div_right (Nat.mul_le_mul_right m (le_of_lt h1))
          _ = m := Nat.mul_div_cancel_left m w0
      refine ⟨Nat.max_eq_left hs, ?_, ?_⟩
      · rw [Nat.min_eq_right hs, Nat.max_eq_left (le_of_lt h1),
          Nat.min_eq_right (le_of_lt h1)]
        exact Nat.div_mul_le_self (h * m) w
      · rw [Nat.min_eq_right hs, Nat.max_eq_left (le_of_lt h1),
          Nat.min_eq_right (le_of_lt h1)]
        calc h * m = w * (h * m / w) + (h * m) % w := (Nat.div_add_mod _ _).symm
          _ < w * (h * m / w) + w := Nat.add_lt_add_left (Nat.mod_lt _ w0) _
          _ = (h * m / w + 1) * w := by ring
    · exfalso; omega
    · have hwh : w ≤ h := Nat.le_of_not_lt h1
      rename_i h3
      have h0 : 0 < h := by omega
      have hs : w * m / h ≤ m := by
        calc w * m / h ≤ h * m / h :=
              Nat.div_le_div_right (Nat.mul_le_mul_right m hwh)
          _ = m := Nat.mul_div_cancel_left m h0
      refine ⟨Nat.max_eq_right hs, ?_, ?_⟩
      · rw [Nat.min_eq_left hs, Nat.max_eq_right hwh, Nat.min_eq_left hwh]
        exact Nat.div_mul_le_self (w * m) h
      · rw [Nat.min_eq_left hs, Nat.max_eq_right hwh, Nat.min_eq_left hwh]
        calc w * m = h * (w * m / h) + (w * m) % h := (Nat.div_add_mod _ _).symm
          _ < h * (w * m / h) + h := Nat.add_lt_add_left (Nat.mod_lt _ h0) _
          _ = (w * m / h + 1) * h := by ring
    · exfalso
      have hwh : w ≤ h := Nat.le_of_not_lt h1
      rename_i h3
      omega

theorem c1_resize_dimensions_witness :
    (max 500 500 ≤ 1080 ∧ resizeImageDims 500 500 1080 = (500, 500)) ∧
    (1080 < max 2000 1000 ∧
      max (resizeImageDims 2000 1000 1080).1 (resizeImageDims 2000 1000 1080).2
        = 1080) :=
  ⟨⟨by decide, (c1_resize_dimensions 500 500 1080).1 (by decide)⟩,
   ⟨by decide, ((c1_resize_dimensions 2000 1000 1080).2.1 (by decide)).1⟩⟩

/-- C2: a selected file whose declared media type does not start with image/
or whose byte size exceeds 10485760 bytes is rejected with a validation toast
and an early return, in both call sites: no store or database call is made,
the run is not successful, and in the gallery no file is recorded for a
later confirm (so the confirm handler does nothing). -/
theorem c2_validation_rejects_before_upload (env : StoreEnv) (value : String)
    (file : SelectedFile) (tok : String) (ts : Nat) (base : String)
    (h : jsStartsWith "image/" file.mediaType = false ∨
      10 * 1024 * 1024 < file.size) :
    (handleFileSelect env value file tok ts base).events.countP isRemoteCall = 0 ∧
    (handleFileSelect env value file tok ts base).success = false ∧
    (handleFileSelect env value file tok ts base).events.countP isToastError = 1 ∧
    (galleryHandleFileSelect file).1.countP isRemoteCall = 0 ∧
    (galleryHandleFileSelect file).2 = none ∧
    handleConfirmUpload env none ts base = ⟨[], false⟩ := by
  unfold handleFileSelect galleryHandleFileSelect handleConfirmUpload
  rcases h with h | h
  · simp [h, isRemoteCall, isToastError]
  · by_cases hty : jsStartsWith "image/" file.mediaType = false
    · simp [hty, isRemoteCall, isToastError]
    · simp [hty, h, isRemoteCall, isToastError]

theorem c2_validation_rejects_before_upload_witness :
    (jsStartsWith "image/" "text/plain" = false ∨
      10 * 1024 * 1024 < (3 : Nat)) ∧
    ((handleFileSelect ⟨false, false, false⟩ "" ⟨"notes.txt", "text/plain", 3⟩
        "tok" 5 "https://p.co").events.countP isRemoteCall = 0 ∧
      (handleFileSelect ⟨false, false, false⟩ "" ⟨"notes.txt", "text/plain", 3⟩
        "tok" 5 "https://p.co").success = false ∧
      (handleFileSelect ⟨false, false, false⟩ "" ⟨"notes.txt", "text/plain", 3⟩
        "tok" 5 "https://p.co").events.countP isToastError = 1 ∧
      (galleryHandleFileSelect ⟨"notes.txt", "text/plain", 3⟩).1.countP
        isRemoteCall = 0 ∧
      (galleryHandleFileSelect ⟨"notes.txt", "text/plain", 3⟩).2 = none ∧
      handleConfirmUpload ⟨false, false, false⟩ none 5 "https://p.co"
        = ⟨[], false⟩) :=
  ⟨Or.inl (by decide),
    c2_validation_rejects_before_upload ⟨false, false, false⟩ ""
      ⟨"notes.txt", "text/plain", 3⟩ "tok" 5 "https://p.co"
      (Or.inl (by decide))⟩

/-! ## Trace-shape helpers for the single-image upload run -/

theorem uploadImage_events (env : StoreEnv) (value : String) (file : SelectedFile)
    (tok : String) (ts : Nat) (base : String) :
    (uploadImage env value file tok ts base).events =
      (if value = "" then [] else deleteOldImage env.deleteFails value) ++
      (StoreEvent.storeUpload "uploads" (uploadFileName tok ts file.name)
        (some "image/jpeg") (some false) ::
        (if env.uploadFails then
          [StoreEvent.toastError "Failed to upload image"]
        else
          [StoreEvent.onChange (publicUrlFor base (uploadFileName tok ts file.name)),
            StoreEvent.toastSuccess "Image uploaded successfully"])) := by
  unfold uploadImage
  cases hu : env.uploadFails <;> simp

theorem uploadImage_success (env : StoreEnv) (value : String) (file : SelectedFile)
    (tok : String) (ts : Nat) (base : String) :
    (uploadImage env value file tok ts base).success = !env.uploadFails := by
  unfold uploadImage
  cases hu : env.uploadFails <;> simp

theorem deleteImageFromStorage_eq_deleteOldImage (df : Bool) (url : String) :
    deleteImageFromStorage df url = deleteOldImage df url := rfl

/-- C3 counterexample: a successful single-image run whose prior reference is
the non-empty externally hosted URL https://example.com/pic.jpg makes zero
store deletion attempts, refuting "exactly one store deletion attempt for
every non-empty prior reference". -/
theorem c3_counterexample :
    ((uploadImage ⟨false, false, false⟩ "https://example.com/pic.jpg"
        ⟨"photo.jpg", "image/jpeg", 1000⟩ "tok" 5 "https://p.co").success = true) ∧
    ((uploadImage ⟨false, false, false⟩ "https://example.com/pic.jpg"
        ⟨"photo.jpg", "image/jpeg", 1000⟩ "tok" 5 "https://p.co").events.countP
      isStoreDelete = 0) := by
  constructor <;> decide

/-- C3 (amended): every single-image ingestion run makes exactly one upload
attempt; when the prior reference is non-empty and contains the storage path
marker, exactly one store deletion attempt is made for it, and when it does
not contain the marker no deletion attempt is made; every gallery confirm
run with a selected file makes exactly one upload attempt. -/
theorem c3_one_delete_one_upload (env : StoreEnv) (value : String)
    (file : SelectedFile) (tok : String) (ts : Nat) (base : String)
    (sf : SelectedFile) (ts2 : Nat) (base2 : String) :
    ((uploadImage env value file tok ts base).events.countP isStoreUpload = 1) ∧
    (value ≠ "" → containsStorageMarker value = true →
      (uploadImage env value file tok ts base).events.countP isStoreDelete = 1) ∧
    (containsStorageMarker value = false →
      (uploadImage env value file tok ts base).events.countP isStoreDelete = 0) ∧
    ((handleConfirmUpload env (some sf) ts2 base2).events.countP
      isStoreUpload = 1) := by
  refine ⟨?_, ?_, ?_, ?_⟩
  · rw [uploadImage_events, List.countP_append]
    have h1 : (if value = "" then ([] : List StoreEvent)
        else deleteOldImage env.deleteFails value).countP isStoreUpload = 0 := by
      split_ifs <;> simp [countP_storeUpload_deleteOldImage]
    rw [h1]
    cases env.uploadFails <;> simp [isStoreUpload, List.countP_cons]
  · intro hv hm
    rw [uploadImage_events, List.countP_append, if_neg hv,
      countP_storeDelete_deleteOldImage, if_neg hv, if_pos hm]
    cases env.uploadFails <;> simp [isStoreDelete, List.countP_cons]
  · intro hm
    rw [uploadImage_events, List.countP_append]
    have h1 : (if value = "" then ([] : List StoreEvent)
        else deleteOldImage env.deleteFails value).countP isStoreDelete = 0 := by
      split_ifs with hv
      · simp
      · rw [countP_storeDelete_deleteOldImage, if_neg hv]
        simp [hm]
    rw [h1]
    cases env.uploadFails <;> simp [isStoreDelete, List.countP_cons]
  · unfold handleConfirmUpload
    cases env.uploadFails <;> cases env.dbFails <;>
      simp [isStoreUpload, List.countP_cons]

theorem c3_one_delete_one_upload_witness :
    (("https://p.co/storage/v1/object/public/uploads/old.jpg" : String) ≠ "" ∧
      containsStorageMarker
        "https://p.co/storage/v1/object/public/uploads/old.jpg" = true ∧
      (uploadImage ⟨false, false, false⟩
        "https://p.co/storage/v1/object/public/uploads/old.jpg"
        ⟨"a.jpg", "image/jpeg", 9⟩ "tok" 5 "https://p.co").events.countP
        isStoreDelete = 1) ∧
    ((uploadImage ⟨false, false, false⟩
        "https://p.co/storage/v1/object/public/uploads/old.jpg"
        ⟨"a.jpg", "image/jpeg", 9⟩ "tok" 5 "https://p.co").events.countP
      isStoreUpload = 1) ∧
    ((handleConfirmUpload ⟨false, false, false⟩ (some ⟨"a.jpg", "image/jpeg", 9⟩)
        5 "https://p.co").events.countP isStoreUpload = 1) :=
  ⟨⟨by decide, by decide,
    (c3_one_delete_one_upload ⟨false, false, false⟩
      "https://p.co/storage/v1/object/public/uploads/old.jpg"
      ⟨"a.jpg", "image/jpeg", 9⟩ "tok" 5 "https://p.co"
      ⟨"a.jpg", "image/jpeg", 9⟩ 5 "https://p.co").2.1
      (by decide) (by decide)⟩,
   (c3_one_delete_one_upload ⟨false, false, false⟩
      "https://p.co/storage/v1/object/public/uploads/old.jpg"
      ⟨"a.jpg", "image/jpeg", 9⟩ "tok" 5 "https://p.co"
      ⟨"a.jpg", "image/jpeg", 9⟩ 5 "https://p.co").1,
   (c3_one_delete_one_upload ⟨false, false, false⟩
      "https://p.co/storage/v1/object/public/uploads/old.jpg"
      ⟨"a.jpg", "image/jpeg", 9⟩ "tok" 5 "https://p.co"
      ⟨"a.jpg", "image/jpeg", 9⟩ 5 "https://p.co").2.2.2⟩

/-- C4: in both deletion helpers (ImageUpload.tsx deleteOldImage and
Activities.tsx deleteImageFromStorage) a store delete is attempted only when
the URL contains the fixed storage path marker — a URL without the marker
produces no store delete call — and every store delete that is made targets
the uploads bucket with the object key equal to the path segment after the
last slash of the URL. -/
theorem c4_delete_guard_and_key (df : Bool) (url : String) :
    (containsStorageMarker url = false →
      (deleteOldImage df url).countP isStoreDelete = 0 ∧
      (deleteImageFromStorage df url).countP isStoreDelete = 0) ∧
    (∀ b k, StoreEvent.storeDelete b k ∈ deleteOldImage df url →
      containsStorageMarker url = true ∧ b = "uploads" ∧
      k = String.mk (afterLastSep (Char.ofNat 47) url.data)) ∧
    (∀ b k, StoreEvent.storeDelete b k ∈ deleteImageFromStorage df url →
      containsStorageMarker url = true ∧ b = "uploads" ∧
      k = String.mk (afterLastSep (Char.ofNat 47) url.data)) := by
  have hkey : fileNameFromUrl url
      = String.mk (afterLastSep (Char.ofNat 47) url.data) := by
    unfold fileNameFromUrl
    rw [getLastD_jsSplit]
  have hmem : ∀ b k, StoreEvent.storeDelete b k ∈ deleteOldImage df url →
      containsStorageMarker url = true ∧ b = "uploads" ∧
      k = String.mk (afterLastSep (Char.ofNat 47) url.data) := by
    intro b k hin
    unfold deleteOldImage at hin
    split_ifs at hin with h1 h2 h3
    · simp at hin
    · simp at hin
      exact ⟨h2, hin.1, hin.2.trans hkey⟩
    · simp at hin
      exact ⟨h2, hin.1, hin.2.trans hkey⟩
    · simp at hin
  refine ⟨?_, hmem, ?_⟩
  · intro hm
    have h0 : (deleteOldImage df url).countP isStoreDelete = 0 := by
      rw [countP_storeDelete_deleteOldImage]
      split_ifs <;> simp_all
    exact ⟨h0, by rw [deleteImageFromStorage_eq_deleteOldImage]; exact h0⟩
  · intro b k hin
    rw [deleteImageFromStorage_eq_deleteOldImage] at hin
    exact hmem b k hin

theorem c4_delete_guard_and_key_witness :
    ((deleteOldImage false "https://example.com/pic.jpg").countP
      isStoreDelete = 0) ∧
    (containsStorageMarker
      "https://p.co/storage/v1/object/public/uploads/abc.jpg" = true ∧
      ("abc.jpg" : String) = String.mk (afterLastSep (Char.ofNat 47)
        ("https://p.co/storage/v1/object/public/uploads/abc.jpg" : String).data)) :=
  ⟨((c4_delete_guard_and_key false "https://example.com/pic.jpg").1
      (by decide)).1,
   (c4_delete_guard_and_key false
      "https://p.co/storage/v1/object/public/uploads/abc.jpg").2.1
      "uploads" "abc.jpg" (by decide) |>.1,
   (c4_delete_guard_and_key false
      "https://p.co/storage/v1/object/public/uploads/abc.jpg").2.1
      "uploads" "abc.jpg" (by decide) |>.2.2⟩

/-- C5: when the pre-upload deletion of a non-empty, store-managed prior
reference fails, the failure is logged and swallowed: the run shows no error
toast, still makes its one upload attempt, and still succeeds. -/
theorem c5_cleanup_failure_swallowed (value : String) (file : SelectedFile)
    (tok : String) (ts : Nat) (base : String)
    (hne : value ≠ "") (hmark : containsStorageMarker value = true) :
    ((uploadImage ⟨true, false, false⟩ value file tok ts base).success = true) ∧
    (StoreEvent.logError ∈
      (uploadImage ⟨true, false, false⟩ value file tok ts base).events) ∧
    ((uploadImage ⟨true, false, false⟩ value file tok ts base).events.countP
      isToastError = 0) ∧
    ((uploadImage ⟨true, false, false⟩ value file tok ts base).events.countP
      isStoreUpload = 1) := by
  have hclean : (if value = "" then ([] : List StoreEvent)
      else deleteOldImage true value)
      = [StoreEvent.storeDelete "uploads" (fileNameFromUrl value),
          StoreEvent.logError] := by
    rw [if_neg hne]
    unfold deleteOldImage
    rw [if_neg hne]
    simp [hmark]
  refine ⟨by rw [uploadImage_success]; rfl, ?_, ?_, ?_⟩
  · rw [uploadImage_events, hclean]
    simp
  · rw [uploadImage_events, List.countP_append, hclean]
    simp [isToastError, List.countP_cons]
  · rw [uploadImage_events, List.countP_append, hclean]
    simp [isStoreUpload, List.countP_cons]

theorem c5_cleanup_failure_swallowed_witness :
    (("https://p.co/storage/v1/object/public/uploads/old.jpg" : String) ≠ "" ∧
      containsStorageMarker
        "https://p.co/storage/v1/object/public/uploads/old.jpg" = true) ∧
    ((uploadImage ⟨true, false, false⟩
        "https://p.co/storage/v1/object/public/uploads/old.jpg"
        ⟨"a.jpg", "image/jpeg", 9⟩ "tok" 5 "https://p.co").success = true ∧
      StoreEvent.logError ∈
        (uploadImage ⟨true, false, false⟩
          "https://p.co/storage/v1/object/public/uploads/old.jpg"
          ⟨"a.jpg", "image/jpeg", 9⟩ "tok" 5 "https://p.co").events) :=
  ⟨⟨by decide, by decide⟩,
   (c5_cleanup_failure_swallowed
      "https://p.co/storage/v1/object/public/uploads/old.jpg"
      ⟨"a.jpg", "image/jpeg", 9⟩ "tok" 5 "https://p.co"
      (by decide) (by decide)).1,
   (c5_cleanup_failure_swallowed
      "https://p.co/storage/v1/object/public/uploads/old.jpg"
      ⟨"a.jpg", "image/jpeg", 9⟩ "tok" 5 "https://p.co"
      (by decide) (by decide)).2.1⟩

/-- C6: whenever the upload step returns an error, both workflows abort and
report it: the run is not successful, exactly one error toast is shown, the
single-image flow never invokes onChange (no link committed), and the
gallery flow inserts no database record. -/
theorem c6_upload_error_aborts (df dbf : Bool) (value : String)
    (file : SelectedFile) (tok : String) (ts : Nat) (base : String)
    (sf : SelectedFile) (ts2 : Nat) (base2 : String) :
    ((uploadImage ⟨df, true, dbf⟩ value file tok ts base).success = false) ∧
    ((uploadImage ⟨df, true, dbf⟩ value file tok ts base).events.countP
      isOnChange = 0) ∧
    ((uploadImage ⟨df, true, dbf⟩ value file tok ts base).events.countP
      isToastError = 1) ∧
    ((handleConfirmUpload ⟨df, true, dbf⟩ (some sf) ts2 base2).success = false) ∧
    ((handleConfirmUpload ⟨df, true, dbf⟩ (some sf) ts2 base2).events.countP
      isDbInsert = 0) ∧
    ((handleConfirmUpload ⟨df, true, dbf⟩ (some sf) ts2 base2).events.countP
      isToastError = 1) := by
  have h1 : ∀ dfx : Bool, (if value = "" then ([] : List StoreEvent)
      else deleteOldImage dfx value).countP isOnChange = 0 := by
    intro dfx; split_ifs <;> simp [countP_onChange_deleteOldImage]
  have h2 : ∀ dfx : Bool, (if value = "" then ([] : List StoreEvent)
      else deleteOldImage dfx value).countP isToastError = 0 := by
    intro dfx; split_ifs <;> simp [countP_toastError_deleteOldImage]
  refine ⟨by rw [uploadImage_success]; rfl, ?_, ?_, ?_, ?_, ?_⟩
  · rw [uploadImage_events, List.countP_append, h1]
    simp [isOnChange, List.countP_cons]
  · rw [uploadImage_events, List.countP_append, h2]
    simp [isToastError, List.countP_cons]
  · unfold handleConfirmUpload
    simp
  · unfold handleConfirmUpload
    simp [isDbInsert, List.countP_cons]
  · unfold handleConfirmUpload
    simp [isToastError, List.countP_cons]

/-- C7 counterexample: the gallery upload call (Gallery.tsx line 124) passes
no file options, so its upload event declares neither the image/jpeg media
type nor an explicit overwrite flag, refuting "every upload call declares
the media type and has overwrite disabled". -/
theorem c7_counterexample :
    ((handleConfirmUpload ⟨false, false, false⟩
      (some ⟨"photo.png", "image/png", 100⟩) 5 "https://p.co").events.all
      uploadDeclaresJpegNoOverwrite) = false := by
  decide

/-- C7 (amended): the single-image flow's upload call declares contentType
image/jpeg with upsert false; the gallery flow's upload call passes no file
options at all (media type undeclared, overwrite disabled only by the SDK
default). -/
theorem c7_upload_options (env : StoreEnv) (value : String)
    (file : SelectedFile) (tok : String) (ts : Nat) (base : String)
    (sf : SelectedFile) (ts2 : Nat) (base2 : String) :
    ((uploadImage env value file tok ts base).events.all
      uploadDeclaresJpegNoOverwrite = true) ∧
    ((handleConfirmUpload env (some sf) ts2 base2).events.all
      uploadHasNoOptions = true) := by
  constructor
  · rw [uploadImage_events, List.all_append]
    have h1 : (if value = "" then ([] : List StoreEvent)
        else deleteOldImage env.deleteFails value).all
        uploadDeclaresJpegNoOverwrite = true := by
      split_ifs <;> simp [all_uploadOptions_deleteOldImage]
    rw [h1]
    cases env.uploadFails <;> simp [uploadDeclaresJpegNoOverwrite]
  · unfold handleConfirmUpload
    cases env.uploadFails <;> cases env.dbFails <;> simp [uploadHasNoOptions]

/-- C8 counterexample: for the original file name photo.png the single-image
key is abc123-170.png and the gallery key is 170-photo.png; the upload of the
JPEG-encoded blob is made under a key that does not carry a JPEG suffix,
refuting "suffixed appropriately for the target JPEG encoding". -/
theorem c8_counterexample :
    (StoreEvent.storeUpload "uploads" "abc123-170.png" (some "image/jpeg")
      (some false) ∈
      (uploadImage ⟨false, false, false⟩ "" ⟨"photo.png", "image/png", 100⟩
        "abc123" 170 "https://p.co").events) ∧
    hasJpegSuffix "abc123-170.png" = false ∧
    hasJpegSuffix (galleryFileName 170 "photo.png") = false := by
  refine ⟨by decide, by decide, by decide⟩

/-- C8 (amended): the single-image key is the random token, a dash, the
timestamp, a dot and the segment of the original file name after its last
dot (the original extension, not a JPEG suffix); the gallery key is the
timestamp, a dash and the whole original file name. -/
theorem c8_key_structure (tok : String) (ts : Nat) (name : String) :
    uploadFileName tok ts name
      = tok ++ "-" ++ toString ts ++ "." ++
        String.mk (afterLastSep (Char.ofNat 46) name.data) ∧
    galleryFileName ts name = toString ts ++ "-" ++ name := by
  constructor
  · unfold uploadFileName
    rw [getLastD_jsSplit]
  · rfl

/-- C9: removing a linked reference whose URL lacks the storage marker skips
the store delete but still clears the link: the single-image removal still
invokes onChange with the empty string, and the gallery deletion still
issues the database row delete. -/
theorem c9_external_url_removal (env : StoreEnv) (url : String) (id : Nat)
    (h : containsStorageMarker url = false) :
    ((removeImage env url).countP isStoreDelete = 0) ∧
    (StoreEvent.onChange "" ∈ removeImage env url) ∧
    ((handleDeleteImage env id url).events.countP isStoreDelete = 0) ∧
    (StoreEvent.dbDelete "gallery" id ∈ (handleDeleteImage env id url).events) := by
  refine ⟨?_, ?_, ?_, ?_⟩
  · unfold removeImage
    rw [List.countP_append]
    have h1 : (if url = "" then ([] : List StoreEvent)
        else deleteOldImage env.deleteFails url).countP isStoreDelete = 0 := by
      split_ifs with hv
      · simp
      · rw [countP_storeDelete_deleteOldImage, if_neg hv]
        simp [h]
    rw [h1]
    simp [isStoreDelete, List.countP_cons]
  · unfold removeImage
    simp
  · unfold handleDeleteImage
    cases env.dbFails <;>
      simp [isStoreDelete, List.countP_cons, List.countP_append, h]
  · unfold handleDeleteImage
    cases env.dbFails <;> simp

theorem c9_external_url_removal_witness :
    containsStorageMarker "https://example.com/pic.jpg" = false ∧
    ((removeImage ⟨false, false, false⟩ "https://example.com/pic.jpg").countP
        isStoreDelete = 0 ∧
      StoreEvent.onChange "" ∈
        removeImage ⟨false, false, false⟩ "https://example.com/pic.jpg" ∧
      (handleDeleteImage ⟨false, false, false⟩ 7
        "https://example.com/pic.jpg").events.countP isStoreDelete = 0 ∧
      StoreEvent.dbDelete "gallery" 7 ∈
        (handleDeleteImage ⟨false, false, false⟩ 7
          "https://example.com/pic.jpg").events) :=
  ⟨by decide,
    c9_external_url_removal ⟨false, false, false⟩ "https://example.com/pic.jpg"
      7 (by decide)⟩

/-- C10: the gallery deletion always issues the database row delete as its
first call, and when the database delete returns an error the operation
aborts with an error toast: no store delete call is made. -/
theorem c10_db_delete_first (env : StoreEnv) (id : Nat) (url : String) :
    ((handleDeleteImage env id url).events.head?
      = some (StoreEvent.dbDelete "gallery" id)) ∧
    (env.dbFails = true →
      (handleDeleteImage env id url).events.countP isStoreDelete = 0 ∧
      (handleDeleteImage env id url).success = false ∧
      (handleDeleteImage env id url).events.countP isToastError = 1) := by
  constructor
  · unfold handleDeleteImage
    cases env.dbFails <;> simp
  · intro hdb
    unfold handleDeleteImage
    simp [hdb, isStoreDelete, isToastError, List.countP_cons]

theorem c10_db_delete_first_witness :
    ((⟨false, false, true⟩ : StoreEnv).dbFails = true) ∧
    ((handleDeleteImage ⟨false, false, true⟩ 7 "u").events.countP
        isStoreDelete = 0 ∧
      (handleDeleteImage ⟨false, false, true⟩ 7 "u").success = false ∧
      (handleDeleteImage ⟨false, false, true⟩ 7 "u").events.countP
        isToastError = 1) :=
  ⟨rfl, (c10_db_delete_first ⟨false, false, true⟩ 7 "u").2 rfl⟩
